import Mathlib

/-!
# Bouncing ball: state machine, menu navigation and physics tick

A shallow embedding of `src/main.cpp`: `GameData`, `resetGame`, the body of the
event loop of `handleEvents`, `updatePhysics`, `handleCollisions` and
`updateGame`.

Modelling conventions.

* `float` values are exact rationals (`ℚ`): every float operation of the source
  is the exact rational operation, so rounding, infinities and NaN are outside
  the model.
* `int selectedMenuOption` is an `Int`; the mixed `int` / `size_t` arithmetic of
  the menu navigation is spelled out with explicit reductions modulo `2^64`
  (`size_t`) and a signed 32-bit wrap (`int`).
* The window is reduced to its open flag, the keyboard to the keys the code
  tests, and `sf::Keyboard::isKeyPressed` to an explicit set of held keys.
* Rendering, fonts and the clock are left out: they never write `GameData`.
-/

namespace BouncingBall

/-! ## Constants -/

def HORIZONTAL_ACCELERATION : ℚ := 300
def HORIZONTAL_DECELERATION : ℚ := 200
def MAX_HORIZONTAL_SPEED : ℚ := 300
def JUMP_VELOCITY : ℚ := -400
def GRAVITY : ℚ := 800
def BALL_RADIUS : ℚ := 40
def GROUND_LEVEL : ℚ := 680
def WINDOW_WIDTH : Int := 1280
def WINDOW_HEIGHT : Int := 720

/-! ## Data model -/

/-- The three values of `enum class GameState`. -/
inductive GameState where
  | MainMenu
  | Playing
  | GameOver
  deriving DecidableEq, Repr

/-- A pair of floats, as `sf::Vector2f`. -/
structure Vector2f where
  x : ℚ
  y : ℚ
  deriving DecidableEq, Repr

/-- The fields of `struct GameData` that the game logic reads and writes. -/
structure GameData where
  ballPosition : Vector2f
  ballVelocity : Vector2f
  isOnGround : Bool
  currentState : GameState
  selectedMenuOption : Int
  deriving DecidableEq, Repr

/-- The default constructor `GameData()`. -/
def GameData.init : GameData :=
  { ballPosition := ⟨640, GROUND_LEVEL⟩
    ballVelocity := ⟨0, 0⟩
    isOnGround := true
    currentState := GameState.MainMenu
    selectedMenuOption := 0 }

/-- The window, reduced to whether it is still open. -/
structure RenderWindow where
  isOpen : Bool
  deriving DecidableEq, Repr

/-- The effect of `window.close()`. -/
def RenderWindow.close (_w : RenderWindow) : RenderWindow := ⟨false⟩

/-- The key codes the code distinguishes; every other key is `Other`. -/
inductive Key where
  | Up
  | Down
  | Left
  | Right
  | Enter
  | Escape
  | Other
  deriving DecidableEq, Repr

/-- The events the loop of `handleEvents` distinguishes. -/
inductive Event where
  | Closed
  | KeyPressed (code : Key)
  | Other
  deriving DecidableEq, Repr

/-- The answers of `sf::Keyboard::isKeyPressed` read by `updatePhysics`. -/
structure HeldKeys where
  left : Bool
  right : Bool
  deriving DecidableEq, Repr

/-! ## Machine integers -/

/-- Conversion of an `int` to `size_t` (64 bits): reduction modulo `2^64`. -/
def toSizeT (i : Int) : Nat := (i % (2 ^ 64 : Int)).toNat

/-- Wrap of an integer into the signed 32-bit range of `int`. -/
def toInt32 (i : Int) : Int := (i + 2 ^ 31) % 2 ^ 32 - 2 ^ 31

/-- The sizes given to both button vectors by `setupMenuButtons` (`resize(2)`). -/
def mainMenuButtonsSize : Nat := 2
def gameOverButtonsSize : Nat := 2

/-- The expression `(selectedMenuOption - 1 + buttons.size()) % buttons.size()`
assigned back to the `int`: the subtraction is done in `int`, the sum and the
remainder in `size_t`. -/
def menuUp (sel : Int) (size : Nat) : Int :=
  toInt32 ((((toSizeT (toInt32 (sel - 1)) + size) % 2 ^ 64) % size : Nat) : Int)

/-- The expression `(selectedMenuOption + 1) % buttons.size()` assigned back to
the `int`. -/
def menuDown (sel : Int) (size : Nat) : Int :=
  toInt32 (((toSizeT (toInt32 (sel + 1)) % size : Nat)) : Int)

/-! ## Operations -/

/-- The function `resetGame`. -/
def resetGame (g : GameData) : GameData :=
  { g with
    ballPosition := ⟨640, GROUND_LEVEL⟩
    ballVelocity := ⟨0, 0⟩
    isOnGround := true }

/-- The `Up` / `Down` / `Enter` chain shared by the `MainMenu` and `GameOver`
branches of `handleEvents`, for a button vector of the given size. -/
def handleMenuKey (size : Nat) (w : RenderWindow) (g : GameData) (code : Key) :
    RenderWindow × GameData :=
  if code = Key.Up then
    (w, { g with selectedMenuOption := menuUp g.selectedMenuOption size })
  else if code = Key.Down then
    (w, { g with selectedMenuOption := menuDown g.selectedMenuOption size })
  else if code = Key.Enter then
    if g.selectedMenuOption = 0 then
      (w, resetGame { g with currentState := GameState.Playing })
    else if g.selectedMenuOption = 1 then
      (w.close, g)
    else
      (w, g)
  else
    (w, g)

/-- The body of the `KeyPressed` branch of `handleEvents`: the chain of tests on
`currentState`.  The last `else if (code == Escape)` of the source is the
alternative of the `Playing` test, so it is only taken when the state is none
of the three enumerators. -/
def handleKeyPressed (mainSize overSize : Nat) (w : RenderWindow) (g : GameData)
    (code : Key) : RenderWindow × GameData :=
  if g.currentState = GameState.MainMenu then
    handleMenuKey mainSize w g code
  else if g.currentState = GameState.GameOver then
    handleMenuKey overSize w g code
  else if g.currentState = GameState.Playing then
    if code = Key.Up ∧ g.isOnGround = true then
      (w, { g with
            ballVelocity := { g.ballVelocity with y := JUMP_VELOCITY }
            isOnGround := false })
    else if code = Key.Escape then
      (w.close, g)
    else
      (w, g)
  else if code = Key.Escape then
    (w.close, g)
  else
    (w, g)

/-- One iteration of the `while (window.pollEvent(event))` loop. -/
def handleEvent (mainSize overSize : Nat) (w : RenderWindow) (g : GameData)
    (e : Event) : RenderWindow × GameData :=
  let w1 := if e = Event.Closed then w.close else w
  match e with
  | Event.KeyPressed code => handleKeyPressed mainSize overSize w1 g code
  | _ => (w1, g)

/-- The function `handleEvents` on the queue of pending events.  `pollEvent`
hands out the next pending event while the window is open and reports no event
once it is closed. -/
def handleEvents (mainSize overSize : Nat) (w : RenderWindow) (g : GameData) :
    List Event → RenderWindow × GameData
  | [] => (w, g)
  | e :: es =>
    if w.isOpen then
      let r := handleEvent mainSize overSize w g e
      handleEvents mainSize overSize r.1 r.2 es
    else
      (w, g)

/-- The function `updatePhysics`. -/
def updatePhysics (keys : HeldKeys) (g : GameData) (deltaTime : ℚ) : GameData :=
  let leftPressed := keys.left
  let rightPressed := keys.right
  let vx0 := g.ballVelocity.x
  let vx1 :=
    if leftPressed && !rightPressed then
      vx0 - HORIZONTAL_ACCELERATION * deltaTime
    else if rightPressed && !leftPressed then
      vx0 + HORIZONTAL_ACCELERATION * deltaTime
    else if vx0 > 0 then
      max 0 (vx0 - HORIZONTAL_DECELERATION * deltaTime)
    else if vx0 < 0 then
      min 0 (vx0 + HORIZONTAL_DECELERATION * deltaTime)
    else
      vx0
  let vx2 := max (-MAX_HORIZONTAL_SPEED) (min MAX_HORIZONTAL_SPEED vx1)
  let vy1 :=
    if !g.isOnGround then g.ballVelocity.y + GRAVITY * deltaTime
    else g.ballVelocity.y
  { g with
    ballVelocity := ⟨vx2, vy1⟩
    ballPosition := ⟨g.ballPosition.x + vx2 * deltaTime,
                     g.ballPosition.y + vy1 * deltaTime⟩ }

/-- The horizontal part of `handleCollisions`: the two wall tests. -/
def handleWalls (g : GameData) : GameData :=
  if g.ballPosition.x - BALL_RADIUS ≤ 0 then
    { g with
      ballPosition := { g.ballPosition with x := BALL_RADIUS }
      ballVelocity := { g.ballVelocity with x := -g.ballVelocity.x } }
  else if g.ballPosition.x + BALL_RADIUS ≥ (WINDOW_WIDTH : ℚ) then
    { g with
      ballPosition := { g.ballPosition with x := (WINDOW_WIDTH : ℚ) - BALL_RADIUS }
      ballVelocity := { g.ballVelocity with x := -g.ballVelocity.x } }
  else
    g

/-- The vertical part of `handleCollisions`: the ground test. -/
def handleGround (g : GameData) : GameData :=
  if g.ballPosition.y ≥ GROUND_LEVEL then
    { g with
      ballPosition := { g.ballPosition with y := GROUND_LEVEL }
      ballVelocity := { g.ballVelocity with y := 0 }
      isOnGround := true }
  else
    { g with isOnGround := false }

/-- The function `handleCollisions`: walls first, then the ground. -/
def handleCollisions (g : GameData) : GameData :=
  handleGround (handleWalls g)

/-- The function `updateGame`. -/
def updateGame (keys : HeldKeys) (g : GameData) (deltaTime : ℚ) : GameData :=
  if g.currentState = GameState.Playing then
    let g2 := handleCollisions (updatePhysics keys g deltaTime)
    if g2.ballPosition.y > GROUND_LEVEL + BALL_RADIUS then
      { g2 with currentState := GameState.GameOver, selectedMenuOption := 0 }
    else
      g2
  else
    g

/-- The program state seen by the main loop: the window and the game data. -/
structure World where
  window : RenderWindow
  gameData : GameData
  deriving DecidableEq, Repr

/-- The state in which `main` enters its loop. -/
def World.init : World := ⟨⟨true⟩, GameData.init⟩

/-- An input of the main loop: a key-press or other event, or an update. -/
inductive Input where
  | event (e : Event)
  | update (keys : HeldKeys) (deltaTime : ℚ)

/-- The state after one input. -/
def applyInput (s : World) : Input → World
  | Input.event e =>
    let r := handleEvent mainMenuButtonsSize gameOverButtonsSize s.window s.gameData e
    ⟨r.1, r.2⟩
  | Input.update keys deltaTime => ⟨s.window, updateGame keys s.gameData deltaTime⟩

/-- The state after a sequence of inputs, from the initial state. -/
def run (inputs : List Input) : World :=
  inputs.foldl applyInput World.init


/-- The bound on the selected option, with the option count of both menus. -/
def selectionInRange (g : GameData) : Prop :=
  0 ≤ g.selectedMenuOption ∧ g.selectedMenuOption < (mainMenuButtonsSize : Int) ∧
    g.selectedMenuOption < (gameOverButtonsSize : Int)

/-! ## Simplification lemmas for the event loop -/

theorem handleEvents_single (m o : Nat) (w : RenderWindow) (g : GameData) (e : Event)
    (hw : w.isOpen = true) :
    handleEvents m o w g [e] = handleEvent m o w g e := by
  simp [handleEvents, hw]

theorem handleEvent_keyPressed (m o : Nat) (w : RenderWindow) (g : GameData) (code : Key) :
    handleEvent m o w g (Event.KeyPressed code) = handleKeyPressed m o w g code := by
  simp [handleEvent]

/-! ## Key presses -/

/-- C1: in state Playing an Up key-press handled by `handleEvents` jumps exactly
when `isOnGround` is true: then the vertical velocity becomes `JUMP_VELOCITY`
(-400) and `isOnGround` is cleared, with position, horizontal velocity and every
other field unchanged; when `isOnGround` is false nothing changes at all. -/
theorem C1_up_jumps_iff_on_ground (m o : Nat) (w : RenderWindow) (g : GameData)
    (hw : w.isOpen = true) (hP : g.currentState = GameState.Playing) :
    JUMP_VELOCITY = -400 ∧
    (g.isOnGround = true →
      handleEvents m o w g [Event.KeyPressed Key.Up] =
        (w, { g with
              ballVelocity := ⟨g.ballVelocity.x, JUMP_VELOCITY⟩
              isOnGround := false })) ∧
    (g.isOnGround = false →
      handleEvents m o w g [Event.KeyPressed Key.Up] = (w, g)) := by
  refine ⟨rfl, ?_, ?_⟩
  · intro hg
    rw [handleEvents_single m o w g _ hw, handleEvent_keyPressed]
    simp [handleKeyPressed, hP, hg]
  · intro hg
    rw [handleEvents_single m o w g _ hw, handleEvent_keyPressed]
    simp [handleKeyPressed, hP, hg]

/-- Witness for C1: the spawn state put in Playing, an open window. -/
theorem C1_up_jumps_iff_on_ground_witness :
    (handleEvents 2 2 ⟨true⟩ { GameData.init with currentState := GameState.Playing }
        [Event.KeyPressed Key.Up]).2.ballVelocity.y = -400 := by
  have h := (C1_up_jumps_iff_on_ground 2 2 ⟨true⟩
    { GameData.init with currentState := GameState.Playing } rfl rfl).2.1 rfl
  rw [h]
  rfl

/-- C2: from MainMenu or GameOver with option 0 selected, an Enter key-press
handled by `handleEvents` enters Playing with the ball at the spawn value:
position (640, 680), velocity (0, 0), on the ground, whatever the ball was
before. -/
theorem C2_enter_resets_ball (m o : Nat) (w : RenderWindow) (g : GameData)
    (hw : w.isOpen = true)
    (hS : g.currentState = GameState.MainMenu ∨ g.currentState = GameState.GameOver)
    (h0 : g.selectedMenuOption = 0) :
    GROUND_LEVEL = 680 ∧
    (handleEvents m o w g [Event.KeyPressed Key.Enter]).2 =
      { ballPosition := ⟨640, 680⟩
        ballVelocity := ⟨0, 0⟩
        isOnGround := true
        currentState := GameState.Playing
        selectedMenuOption := g.selectedMenuOption } := by
  refine ⟨rfl, ?_⟩
  rw [handleEvents_single m o w g _ hw, handleEvent_keyPressed]
  rcases hS with hS | hS <;>
    simp [handleKeyPressed, handleMenuKey, resetGame, hS, h0, GROUND_LEVEL]

/-- Witness for C2: a GameOver state with a moving, airborne ball. -/
theorem C2_enter_resets_ball_witness :
    (handleEvents 2 2 ⟨true⟩
        { ballPosition := ⟨100, 300⟩
          ballVelocity := ⟨-120, 55⟩
          isOnGround := false
          currentState := GameState.GameOver
          selectedMenuOption := 0 }
        [Event.KeyPressed Key.Enter]).2 =
      { ballPosition := ⟨640, 680⟩
        ballVelocity := ⟨0, 0⟩
        isOnGround := true
        currentState := GameState.Playing
        selectedMenuOption := 0 } :=
  (C2_enter_resets_ball 2 2 ⟨true⟩
    { ballPosition := ⟨100, 300⟩
      ballVelocity := ⟨-120, 55⟩
      isOnGround := false
      currentState := GameState.GameOver
      selectedMenuOption := 0 } rfl (Or.inr rfl) rfl).2

/-- C3: an Escape key-press in MainMenu or GameOver leaves the window open and
the game data untouched, for every selected option, while the same key-press in
Playing closes the window: the `Escape` test that follows the three state tests
in `handleEvents` is never reached. -/
theorem C3_escape_ignored_in_menus (m o : Nat) (g : GameData) :
    (g.currentState = GameState.MainMenu ∨ g.currentState = GameState.GameOver →
      handleEvents m o ⟨true⟩ g [Event.KeyPressed Key.Escape] = (⟨true⟩, g)) ∧
    (g.currentState = GameState.Playing →
      handleEvents m o ⟨true⟩ g [Event.KeyPressed Key.Escape] = (⟨false⟩, g)) := by
  constructor
  · intro hS
    rw [handleEvents_single m o _ g _ rfl, handleEvent_keyPressed]
    rcases hS with hS | hS <;> simp [handleKeyPressed, handleMenuKey, hS]
  · intro hS
    rw [handleEvents_single m o _ g _ rfl, handleEvent_keyPressed]
    simp [handleKeyPressed, hS, RenderWindow.close]

/-- Witness for C3: the initial state, in MainMenu, keeps its window open on
Escape. -/
theorem C3_escape_ignored_in_menus_witness :
    (handleEvents mainMenuButtonsSize gameOverButtonsSize ⟨true⟩ GameData.init
        [Event.KeyPressed Key.Escape]).1.isOpen = true := by
  rw [(C3_escape_ignored_in_menus mainMenuButtonsSize gameOverButtonsSize
    GameData.init).1 (Or.inl rfl)]

/-! ## Menu navigation -/

theorem menuDown_two (sel : Int) : menuDown sel 2 = 0 ∨ menuDown sel 2 = 1 := by
  unfold menuDown
  have h : toSizeT (toInt32 (sel + 1)) % 2 < 2 := Nat.mod_lt _ (by decide)
  generalize toSizeT (toInt32 (sel + 1)) % 2 = k at h
  interval_cases k
  · left; rfl
  · right; rfl

theorem menuUp_two (sel : Int) : menuUp sel 2 = 0 ∨ menuUp sel 2 = 1 := by
  unfold menuUp
  have h : ((toSizeT (toInt32 (sel - 1)) + 2) % 2 ^ 64) % 2 < 2 := Nat.mod_lt _ (by decide)
  generalize ((toSizeT (toInt32 (sel - 1)) + 2) % 2 ^ 64) % 2 = k at h
  interval_cases k
  · left; rfl
  · right; rfl

/-- C6: in MainMenu and in GameOver, whose menus have two buttons each, two
consecutive Down key-presses handled by `handleEvents` bring
`selectedMenuOption` back to its value, for every value in range, and change
nothing else (the state and the window included). -/
theorem C6_down_twice_is_identity (w : RenderWindow) (g : GameData)
    (hw : w.isOpen = true)
    (hS : g.currentState = GameState.MainMenu ∨ g.currentState = GameState.GameOver)
    (hlo : 0 ≤ g.selectedMenuOption)
    (hhi : g.selectedMenuOption < (mainMenuButtonsSize : Int)) :
    mainMenuButtonsSize = 2 ∧ gameOverButtonsSize = 2 ∧
    handleEvents mainMenuButtonsSize gameOverButtonsSize w g
      [Event.KeyPressed Key.Down, Event.KeyPressed Key.Down] = (w, g) := by
  refine ⟨rfl, rfl, ?_⟩
  obtain ⟨pos, vel, og, st, sel⟩ := g
  simp only [mainMenuButtonsSize] at hhi
  simp only at hS hlo hhi
  have hsel : sel = 0 ∨ sel = 1 := by omega
  rcases hS with hS | hS <;> rcases hsel with h | h <;> subst hS <;> subst h <;>
    simp [handleEvents, handleEvent, handleKeyPressed, handleMenuKey, hw,
      mainMenuButtonsSize, gameOverButtonsSize] <;> decide

/-- Witness for C6: GameOver with the second option selected. -/
theorem C6_down_twice_is_identity_witness :
    (handleEvents mainMenuButtonsSize gameOverButtonsSize ⟨true⟩
      { GameData.init with currentState := GameState.GameOver, selectedMenuOption := 1 }
      [Event.KeyPressed Key.Down, Event.KeyPressed Key.Down]).2.selectedMenuOption = 1 := by
  rw [(C6_down_twice_is_identity ⟨true⟩
    { GameData.init with currentState := GameState.GameOver, selectedMenuOption := 1 }
    rfl (Or.inr rfl) (by decide) (by decide)).2.2]

/-! ## Physics: basic facts about one update -/

theorem handleWalls_y (g : GameData) :
    (handleWalls g).ballPosition.y = g.ballPosition.y ∧
    (handleWalls g).ballVelocity.y = g.ballVelocity.y ∧
    (handleWalls g).currentState = g.currentState ∧
    (handleWalls g).selectedMenuOption = g.selectedMenuOption := by
  unfold handleWalls
  split_ifs <;> simp

theorem handleGround_x (g : GameData) :
    (handleGround g).ballPosition.x = g.ballPosition.x ∧
    (handleGround g).ballVelocity.x = g.ballVelocity.x ∧
    (handleGround g).currentState = g.currentState ∧
    (handleGround g).selectedMenuOption = g.selectedMenuOption := by
  unfold handleGround
  split_ifs <;> simp

theorem handleGround_y_le (g : GameData) :
    (handleGround g).ballPosition.y ≤ GROUND_LEVEL := by
  unfold handleGround
  split_ifs with h
  · simp
  · simpa using le_of_lt (not_le.mp h)

theorem handleCollisions_y_le (g : GameData) :
    (handleCollisions g).ballPosition.y ≤ GROUND_LEVEL :=
  handleGround_y_le (handleWalls g)

theorem handleCollisions_keeps (g : GameData) :
    (handleCollisions g).currentState = g.currentState ∧
    (handleCollisions g).selectedMenuOption = g.selectedMenuOption := by
  unfold handleCollisions
  exact ⟨(handleGround_x _).2.2.1.trans (handleWalls_y g).2.2.1,
    (handleGround_x _).2.2.2.trans (handleWalls_y g).2.2.2⟩

theorem updatePhysics_keeps (keys : HeldKeys) (g : GameData) (dt : ℚ) :
    (updatePhysics keys g dt).currentState = g.currentState ∧
    (updatePhysics keys g dt).selectedMenuOption = g.selectedMenuOption ∧
    (updatePhysics keys g dt).isOnGround = g.isOnGround := by
  simp [updatePhysics]

/-- In Playing, `updateGame` is `updatePhysics` followed by `handleCollisions`:
the game-over test that follows them never fires. -/
theorem updateGame_playing (keys : HeldKeys) (g : GameData) (dt : ℚ)
    (hP : g.currentState = GameState.Playing) :
    updateGame keys g dt = handleCollisions (updatePhysics keys g dt) := by
  have hy := handleCollisions_y_le (updatePhysics keys g dt)
  unfold updateGame
  rw [if_pos hP]
  have hn : ¬ (handleCollisions (updatePhysics keys g dt)).ballPosition.y >
      GROUND_LEVEL + BALL_RADIUS := by
    have : (0 : ℚ) < BALL_RADIUS := by norm_num [BALL_RADIUS]
    linarith
  simp only [hn, if_false]

theorem updateGame_not_playing (keys : HeldKeys) (g : GameData) (dt : ℚ)
    (hP : g.currentState ≠ GameState.Playing) :
    updateGame keys g dt = g := by
  unfold updateGame
  rw [if_neg hP]

theorem updateGame_keeps (keys : HeldKeys) (g : GameData) (dt : ℚ) :
    (updateGame keys g dt).currentState = g.currentState ∧
    (updateGame keys g dt).selectedMenuOption = g.selectedMenuOption := by
  by_cases hP : g.currentState = GameState.Playing
  · rw [updateGame_playing keys g dt hP]
    exact ⟨(handleCollisions_keeps _).1.trans (updatePhysics_keeps keys g dt).1,
      (handleCollisions_keeps _).2.trans (updatePhysics_keeps keys g dt).2.1⟩
  · rw [updateGame_not_playing keys g dt hP]
    exact ⟨rfl, rfl⟩

theorem handleWalls_x_bounds (g : GameData) :
    BALL_RADIUS ≤ (handleWalls g).ballPosition.x ∧
    (handleWalls g).ballPosition.x ≤ (WINDOW_WIDTH : ℚ) - BALL_RADIUS ∧
    |(handleWalls g).ballVelocity.x| = |g.ballVelocity.x| := by
  unfold handleWalls
  split_ifs with h1 h2
  · simp only [abs_neg]
    refine ⟨le_refl _, ?_, trivial⟩
    norm_num [WINDOW_WIDTH, BALL_RADIUS]
  · simp only [abs_neg]
    refine ⟨?_, le_refl _, trivial⟩
    norm_num [WINDOW_WIDTH, BALL_RADIUS]
  · refine ⟨?_, ?_, rfl⟩
    · linarith [not_le.mp h1]
    · have := not_le.mp h2
      linarith

theorem updatePhysics_vx_bound (keys : HeldKeys) (g : GameData) (dt : ℚ) :
    |(updatePhysics keys g dt).ballVelocity.x| ≤ MAX_HORIZONTAL_SPEED := by
  have h0 : (0 : ℚ) ≤ MAX_HORIZONTAL_SPEED := by norm_num [MAX_HORIZONTAL_SPEED]
  simp only [updatePhysics]
  rw [abs_le]
  constructor
  · exact le_max_left _ _
  · exact max_le (by linarith) (min_le_left _ _)

/-- C9: after one `updateGame` in Playing, from any position and velocity, with
any held keys and any dt, the ball is inside the field and its horizontal speed
is bounded: 40 <= x <= 1240, y <= 680 and |vx| <= 300. -/
theorem C9_ball_in_field_after_update (keys : HeldKeys) (g : GameData) (dt : ℚ)
    (hP : g.currentState = GameState.Playing) :
    BALL_RADIUS = 40 ∧ (WINDOW_WIDTH : ℚ) - BALL_RADIUS = 1240 ∧ GROUND_LEVEL = 680 ∧
    MAX_HORIZONTAL_SPEED = 300 ∧
    40 ≤ (updateGame keys g dt).ballPosition.x ∧
    (updateGame keys g dt).ballPosition.x ≤ 1240 ∧
    (updateGame keys g dt).ballPosition.y ≤ 680 ∧
    |(updateGame keys g dt).ballVelocity.x| ≤ 300 := by
  have hR : BALL_RADIUS = 40 := rfl
  have hW : (WINDOW_WIDTH : ℚ) - BALL_RADIUS = 1240 := by norm_num [WINDOW_WIDTH, BALL_RADIUS]
  have hG : GROUND_LEVEL = 680 := rfl
  have hM : MAX_HORIZONTAL_SPEED = 300 := rfl
  have hb := handleWalls_x_bounds (updatePhysics keys g dt)
  have hg := handleGround_x (handleWalls (updatePhysics keys g dt))
  have hy := handleCollisions_y_le (updatePhysics keys g dt)
  have hv := updatePhysics_vx_bound keys g dt
  rw [updateGame_playing keys g dt hP]
  refine ⟨hR, hW, hG, hM, ?_, ?_, ?_, ?_⟩
  · show 40 ≤ (handleGround (handleWalls (updatePhysics keys g dt))).ballPosition.x
    rw [hg.1, ← hR]; exact hb.1
  · show (handleGround (handleWalls (updatePhysics keys g dt))).ballPosition.x ≤ 1240
    rw [hg.1, ← hW]; exact hb.2.1
  · rw [← hG]; exact hy
  · show |(handleGround (handleWalls (updatePhysics keys g dt))).ballVelocity.x| ≤ 300
    rw [hg.2.1, hb.2.2, ← hM]; exact hv

/-- Witness for C9: a ball far outside the field moving fast, Right held, a
long step. -/
theorem C9_ball_in_field_after_update_witness :
    (updateGame ⟨false, true⟩
      { ballPosition := ⟨5000, 9000⟩
        ballVelocity := ⟨-7000, 12⟩
        isOnGround := false
        currentState := GameState.Playing
        selectedMenuOption := 1 } 3).ballPosition.x ≤ 1240 :=
  (C9_ball_in_field_after_update ⟨false, true⟩
      { ballPosition := ⟨5000, 9000⟩
        ballVelocity := ⟨-7000, 12⟩
        isOnGround := false
        currentState := GameState.Playing
        selectedMenuOption := 1 } 3 rfl).2.2.2.2.2.1

theorem selectionInRange_of_bit {g : GameData}
    (h : g.selectedMenuOption = 0 ∨ g.selectedMenuOption = 1) : selectionInRange g := by
  unfold selectionInRange mainMenuButtonsSize gameOverButtonsSize
  rcases h with h | h <;> rw [h] <;> decide

theorem handleMenuKey_selection (w : RenderWindow) (g : GameData) (code : Key)
    (h : selectionInRange g) : selectionInRange (handleMenuKey 2 w g code).2 := by
  unfold handleMenuKey
  split_ifs
  · exact selectionInRange_of_bit (menuUp_two _)
  · exact selectionInRange_of_bit (menuDown_two _)
  · exact h
  · exact h
  · exact h
  · exact h

theorem handleEvent_selection (w : RenderWindow) (g : GameData) (e : Event)
    (h : selectionInRange g) :
    selectionInRange (handleEvent mainMenuButtonsSize gameOverButtonsSize w g e).2 := by
  cases e with
  | Closed => exact h
  | Other => exact h
  | KeyPressed code =>
    rw [handleEvent_keyPressed]
    unfold handleKeyPressed mainMenuButtonsSize gameOverButtonsSize
    split_ifs
    · exact handleMenuKey_selection w g code h
    · exact handleMenuKey_selection w g code h
    · exact h
    · exact h
    · exact h
    · exact h
    · exact h

theorem applyInput_selection (s : World) (i : Input) (h : selectionInRange s.gameData) :
    selectionInRange (applyInput s i).gameData := by
  cases i with
  | event e => exact handleEvent_selection s.window s.gameData e h
  | update keys dt =>
    have hk : (applyInput s (Input.update keys dt)).gameData.selectedMenuOption =
        s.gameData.selectedMenuOption := (updateGame_keeps keys s.gameData dt).2
    unfold selectionInRange at h ⊢
    rw [hk]
    exact h

theorem foldl_selection (inputs : List Input) (s : World) (h : selectionInRange s.gameData) :
    selectionInRange (inputs.foldl applyInput s).gameData := by
  induction inputs generalizing s with
  | nil => exact h
  | cons i rest ih => exact ih (applyInput s i) (applyInput_selection s i h)

theorem handleMenuKey_state (size : Nat) (w : RenderWindow) (g : GameData) (code : Key)
    (h : g.currentState ≠ GameState.GameOver) :
    (handleMenuKey size w g code).2.currentState ≠ GameState.GameOver := by
  obtain ⟨pos, vel, og, st, sel⟩ := g
  replace h : st ≠ GameState.GameOver := h
  unfold handleMenuKey
  split_ifs
  · exact h
  · exact h
  · intro hc
    cases hc
  · exact h
  · exact h
  · exact h

theorem handleEvent_state (m o : Nat) (w : RenderWindow) (g : GameData) (e : Event)
    (h : g.currentState ≠ GameState.GameOver) :
    (handleEvent m o w g e).2.currentState ≠ GameState.GameOver := by
  cases e with
  | Closed => exact h
  | Other => exact h
  | KeyPressed code =>
    rw [handleEvent_keyPressed]
    unfold handleKeyPressed
    by_cases h1 : g.currentState = GameState.MainMenu
    · rw [if_pos h1]
      exact handleMenuKey_state m w g code h
    · rw [if_neg h1, if_neg h]
      split_ifs <;> exact h

theorem applyInput_state (s : World) (i : Input)
    (h : s.gameData.currentState ≠ GameState.GameOver) :
    (applyInput s i).gameData.currentState ≠ GameState.GameOver := by
  cases i with
  | event e => exact handleEvent_state _ _ s.window s.gameData e h
  | update keys dt =>
    show (updateGame keys s.gameData dt).currentState ≠ GameState.GameOver
    rw [(updateGame_keeps keys s.gameData dt).1]
    exact h

theorem foldl_state (inputs : List Input) (s : World)
    (h : s.gameData.currentState ≠ GameState.GameOver) :
    (inputs.foldl applyInput s).gameData.currentState ≠ GameState.GameOver := by
  induction inputs generalizing s with
  | nil => exact h
  | cons i rest ih => exact ih (applyInput s i) (applyInput_state s i h)

/-- C7: in every state reached from the initial one (MainMenu, option 0) by any
sequence of events handled by `handleEvents` and calls of `updateGame`,
0 <= selectedMenuOption < 2, the option count of both menus. -/
theorem C7_selection_always_in_range (inputs : List Input) :
    mainMenuButtonsSize = 2 ∧ gameOverButtonsSize = 2 ∧
    0 ≤ (run inputs).gameData.selectedMenuOption ∧
    (run inputs).gameData.selectedMenuOption < 2 := by
  have h0 : selectionInRange World.init.gameData :=
    selectionInRange_of_bit (Or.inl rfl)
  have h := foldl_selection inputs World.init h0
  exact ⟨rfl, rfl, h.1, h.2.1⟩

/-- C8: the game-over test of `updateGame` never fires.  In Playing, with any
held keys and any dt, the height after `handleCollisions` is at most
GROUND_LEVEL, so it is not above GROUND_LEVEL + BALL_RADIUS and `updateGame`
leaves the state Playing; and no sequence of events and updates from the
initial state reaches GameOver. -/
theorem C8_game_over_unreachable :
    (∀ (keys : HeldKeys) (g : GameData) (dt : ℚ), g.currentState = GameState.Playing →
      (handleCollisions (updatePhysics keys g dt)).ballPosition.y ≤ GROUND_LEVEL ∧
      ¬ (handleCollisions (updatePhysics keys g dt)).ballPosition.y >
          GROUND_LEVEL + BALL_RADIUS ∧
      (updateGame keys g dt).currentState = GameState.Playing) ∧
    (∀ inputs : List Input, (run inputs).gameData.currentState ≠ GameState.GameOver) := by
  constructor
  · intro keys g dt hP
    have hy := handleCollisions_y_le (updatePhysics keys g dt)
    have hr : (0 : ℚ) < BALL_RADIUS := by norm_num [BALL_RADIUS]
    refine ⟨hy, ?_, ?_⟩
    · intro hgt
      have : GROUND_LEVEL + BALL_RADIUS <
          (handleCollisions (updatePhysics keys g dt)).ballPosition.y := hgt
      linarith
    · rw [(updateGame_keeps keys g dt).1]
      exact hP
  · intro inputs
    exact foldl_state inputs World.init (by decide)

/-- Witness for C8: a ball 200 below the game-over threshold is put back on the
ground by the update and the state stays Playing. -/
theorem C8_game_over_unreachable_witness :
    (updateGame ⟨false, false⟩
      { ballPosition := ⟨640, 920⟩
        ballVelocity := ⟨0, 500⟩
        isOnGround := false
        currentState := GameState.Playing
        selectedMenuOption := 0 } (1 / 30)).currentState = GameState.Playing :=
  (C8_game_over_unreachable.1 ⟨false, false⟩
      { ballPosition := ⟨640, 920⟩
        ballVelocity := ⟨0, 500⟩
        isOnGround := false
        currentState := GameState.Playing
        selectedMenuOption := 0 } (1 / 30) rfl).2.2

end BouncingBall
